import Mathlib

/-!
Verification of the battery thermal model (`Battery/battery_thermal_model.py`).

The numeric type is `ℚ`: every quantity in the Python model is a float
computed by field arithmetic from decimal literals, and the properties under
study are exact algebraic relationships between those quantities, so we embed
the arithmetic exactly over the rationals.

The geometry helper `calculate_heat_transfer_areas` lives in
`Battery.battery_model_functions`, a module not present in the sources; the
five surface areas it returns are therefore taken as direct inputs of the
network builder below.
-/

namespace BatteryThermal

/-- `calculate_convective_resistance` (battery_thermal_model.py lines 9-23):
`R = 1 / (h * A)`. -/
def calculate_convective_resistance (heat_transfer_coefficient area_m2 : ℚ) : ℚ :=
  1 / (heat_transfer_coefficient * area_m2)

/-- `calculate_conductive_resistance` (lines 26-43): `R = d / (k * A)`. -/
def calculate_conductive_resistance (thickness_m thermal_conductivity area_m2 : ℚ) : ℚ :=
  thickness_m / (thermal_conductivity * area_m2)

/-- One wall layer, in the tuple order used throughout the repository:
`(thickness_m, thermal_conductivity, heat_capacity, density, emissivity)`
(see the parameter annotation at battery_thermal_model.py line 284 and the
construction of `inner_material_params` / `outer_material_params` in
`Container/Container.py`). -/
structure MaterialLayer where
  thickness_m : ℚ
  thermal_conductivity : ℚ
  heat_capacity : ℚ
  density : ℚ
  emissivity : ℚ

/-- `calculate_composite_conductive_resistance` (lines 46-67): series sum of
`thickness / (conductivity * area)`; the loop unpacks each 5-tuple as
`(thickness_m, thermal_conductivity, _, _, _)`. -/
def calculate_composite_conductive_resistance
    (materials : List MaterialLayer) (area_m2 : ℚ) : ℚ :=
  materials.foldl
    (fun total_resistance m =>
      total_resistance + m.thickness_m / (m.thermal_conductivity * area_m2)) 0

/-- `calculate_heat_energy_flow` (lines 70-89):
`Q = ((T_in - T_out) / R) * dt`. -/
def calculate_heat_energy_flow
    (internal_temperature external_temperature thermal_resistance duration_seconds : ℚ) : ℚ :=
  ((internal_temperature - external_temperature) / thermal_resistance) * duration_seconds

/-- The Stefan-Boltzmann constant `5.67e-8` as written in the source. -/
def stefan_boltzmann_constant : ℚ := 567 / 10000000000

/-- The Celsius-to-Kelvin offset `273.15` as written in the source. -/
def celsius_to_kelvin_offset : ℚ := 27315 / 100

/-- `calculate_inner_radiative_heat_flow` (lines 92-141): enclosed grey-body
exchange with effective emissivity
`1 / (1/eps_in + (A_in/A_out) * (1/eps_out - 1))`. -/
def calculate_inner_radiative_heat_flow
    (surface_area_inner surface_area_outer emissivity_inner emissivity_outer
     temperature_inner_c temperature_outer_c duration_seconds : ℚ) : ℚ :=
  let temperature_inner_k := temperature_inner_c + celsius_to_kelvin_offset
  let temperature_outer_k := temperature_outer_c + celsius_to_kelvin_offset
  let effective_emissivity :=
    1 / ((1 / emissivity_inner)
      + (surface_area_inner / surface_area_outer) * (1 / emissivity_outer - 1))
  let power_watts :=
    stefan_boltzmann_constant * effective_emissivity * surface_area_inner
      * (temperature_inner_k ^ 4 - temperature_outer_k ^ 4)
  power_watts * duration_seconds

/-- `calculate_outer_radiative_heat_flow` (lines 144-177): Stefan-Boltzmann
radiation `sigma * eps * A * (T_in_K^4 - T_out_K^4) * dt`. -/
def calculate_outer_radiative_heat_flow
    (surface_area emissivity temperature_inner_c temperature_outer_c duration_seconds : ℚ) : ℚ :=
  let temperature_inner_k := temperature_inner_c + celsius_to_kelvin_offset
  let temperature_outer_k := temperature_outer_c + celsius_to_kelvin_offset
  let power_watts :=
    stefan_boltzmann_constant * emissivity * surface_area
      * (temperature_inner_k ^ 4 - temperature_outer_k ^ 4)
  power_watts * duration_seconds

/-- `calc_change_in_temperature_c` (lines 254-272):
`T_new = T + Q / (c * m)`. -/
def calc_change_in_temperature_c (initial_temp heat_energy heat_capacity mass : ℚ) : ℚ :=
  initial_temp + heat_energy / (heat_capacity * mass)

/-- The value tuple returned by `calculate_battery_box_parameters`
(lines 385-388). -/
structure BoxParams where
  box_wall_mass_kg : ℚ
  box_heat_capacity : ℚ
  battery_conductive_resistance : ℚ
  battery_convective_resistance : ℚ
  box_inner_convective_resistance : ℚ
  box_composite_conductive_resistance : ℚ
  box_outer_conductive_resistance : ℚ
  box_outer_convective_resistance : ℚ
  total_box_area : ℚ
  total_battery_area : ℚ

/-- Core of `calculate_battery_box_parameters` (lines 350-388), after the
material-property bindings have been resolved: wall mass, wall heat capacity
and the six resistances.  `material_list` is still needed because line 361
passes the *original* list to `calculate_composite_conductive_resistance`,
whose tuple unpacking fails (Python `TypeError`) if any entry is `None`,
modelled here by `List.mapM id` returning `none`. -/
def buildBoxParams
    (battery_conductive_area battery_convective_area air_convective_area
     box_conductive_area box_convective_area : ℚ)
    (inner_material_thermal_conductivity inner_material_layer_thickness
     inner_material_heat_capacity inner_material_density
     outer_material_thermal_conductivity outer_material_layer_thickness
     outer_material_heat_capacity outer_material_density : ℚ)
    (material_list : List (Option MaterialLayer)) : Option BoxParams :=
  let total_box_area := box_conductive_area + box_convective_area
  let total_battery_area := battery_conductive_area + battery_convective_area
  (material_list.mapM id).map fun materials =>
    { box_wall_mass_kg :=
        (total_box_area / 2 * inner_material_density * inner_material_layer_thickness)
          + (total_box_area / 2 * outer_material_density) * outer_material_layer_thickness
      box_heat_capacity :=
        (inner_material_heat_capacity + outer_material_heat_capacity) / 2
      battery_conductive_resistance :=
        calculate_conductive_resistance inner_material_layer_thickness
          inner_material_thermal_conductivity battery_conductive_area
      battery_convective_resistance :=
        calculate_convective_resistance 5 battery_convective_area
      box_inner_convective_resistance :=
        calculate_convective_resistance 5 air_convective_area
      box_composite_conductive_resistance :=
        calculate_composite_conductive_resistance materials total_box_area
      box_outer_conductive_resistance :=
        calculate_conductive_resistance outer_material_layer_thickness
          outer_material_thermal_conductivity box_conductive_area
      box_outer_convective_resistance :=
        calculate_convective_resistance 5 box_convective_area
      total_box_area := total_box_area
      total_battery_area := total_battery_area }

/-- `calculate_battery_box_parameters` (lines 275-388), with the five surface
areas produced by the absent `calculate_heat_transfer_areas` taken as inputs.
`material_list` entries are `Option MaterialLayer` so that a Python `None`
entry can be represented; `none` as the overall result models the exceptions
the Python function raises:
* an empty list raises `IndexError` at `material_list[0]` (line 333);
* a `None` first entry raises `TypeError` at `material_list[0][0]`;
* a single-element list raises `IndexError` at `material_list[1]` (line 338);
* a `None` (falsy) second entry survives until line 361, where unpacking it
  in `calculate_composite_conductive_resistance` raises `TypeError`.
Lines 333-336 and 339-342 of the source read tuple position `[0]` into the
`..._thermal_conductivity` variable and position `[1]` into the
`..._layer_thickness` variable, although position `[0]` of the tuples is the
thickness and `[1]` the conductivity (line 284's annotation and
`Container.py`); the embedding reproduces those reads field-for-field. -/
def calculate_battery_box_parameters
    (battery_conductive_area battery_convective_area air_convective_area
     box_conductive_area box_convective_area : ℚ)
    (material_list : List (Option MaterialLayer)) : Option BoxParams :=
  match material_list.get? 0 with
  | none => none
  | some none => none
  | some (some mat0) =>
    let outer_material_thermal_conductivity := mat0.thickness_m
    let outer_material_layer_thickness := mat0.thermal_conductivity
    let outer_material_heat_capacity := mat0.heat_capacity
    let outer_material_density := mat0.density
    match material_list.get? 1 with
    | none => none
    | some (some mat1) =>
      buildBoxParams battery_conductive_area battery_convective_area
        air_convective_area box_conductive_area box_convective_area
        mat1.thickness_m mat1.thermal_conductivity mat1.heat_capacity mat1.density
        outer_material_thermal_conductivity outer_material_layer_thickness
        outer_material_heat_capacity outer_material_density material_list
    | some none =>
      let halved_thickness := outer_material_layer_thickness / 2
      buildBoxParams battery_conductive_area battery_convective_area
        air_convective_area box_conductive_area box_convective_area
        outer_material_thermal_conductivity halved_thickness
        outer_material_heat_capacity outer_material_density
        outer_material_thermal_conductivity halved_thickness
        outer_material_heat_capacity outer_material_density material_list

/-- The scalar model parameters of `jit_battery_energy_flow_model`
(lines 704-725).  `heater_power_j` is the per-bucket heater energy
(`heater_power_w * bucket_period_seconds`, line 468). -/
structure EngineParams where
  bucket_period_seconds : ℚ
  battery_mass_kg : ℚ
  battery_heat_capacity : ℚ
  total_battery_area : ℚ
  box_wall_mass_kg : ℚ
  box_heat_capacity : ℚ
  total_box_area : ℚ
  battery_conductive_resistance : ℚ
  battery_convective_resistance : ℚ
  box_composite_conductive_resistance : ℚ
  box_outer_conductive_resistance : ℚ
  box_outer_convective_resistance : ℚ
  heater_threshold_temp_c : ℚ
  use_heater : Bool
  heater_power_j : ℚ
  heater_battery_transfer : ℚ
  heater_time_minutes : ℚ
  battery_emissivity : ℚ
  box_inner_emissivity : ℚ
  box_outer_emissivity : ℚ
  battery_throughput_losses : ℚ

/-- The mutable loop state of `jit_battery_energy_flow_model`: the three
scalar temperatures (lines 729-731) and the heater dwell state
(`heater_on`, `heater_counter`, lines 734-735). -/
structure EngineState where
  battery_temp_c : ℚ
  box_inner_temp_c : ℚ
  box_outer_temp_c : ℚ
  heater_on : Bool
  heater_counter : ℕ

/-- The values written to the output arrays at index `i` during one loop
iteration of `jit_battery_energy_flow_model`: one field per array the loop
accumulates into, plus the three temperatures written at lines 897-899. -/
structure StepRecord where
  battery_heater_input : ℚ
  battery_losses_input : ℚ
  battery_net_energy : ℚ
  battery_cond_to_box_inner : ℚ
  battery_conv_to_box_inner : ℚ
  battery_radi_to_box_inner : ℚ
  heater_to_battery : ℚ
  heater_to_box_inner : ℚ
  box_inner_net_energy : ℚ
  box_inner_cond_to_battery : ℚ
  box_inner_conv_to_battery : ℚ
  box_inner_radi_to_battery : ℚ
  box_inner_to_box_outer : ℚ
  box_outer_net_energy : ℚ
  box_outer_to_box_inner : ℚ
  box_outer_cond_to_environment : ℚ
  box_outer_conv_to_environment : ℚ
  box_outer_radi_to_environment : ℚ
  box_outer_cond_from_environment : ℚ
  box_outer_conv_from_environment : ℚ
  box_outer_radi_from_environment : ℚ
  battery_temp_c : ℚ
  box_inner_temp_c : ℚ
  box_outer_temp_c : ℚ

/-- The array values at index `i` before the loop body runs: every tally
column was initialised to `0.0` (lines 474-497), except
`Battery_Losses_Input_J` (the precomputed throughput loss, line 506-509) and
`Battery_Net_Energy_J`, which was *copied from* `Battery_Losses_Input_J`
before the loop (line 530), so both start at the loss value `losses`. -/
def initRecord (losses : ℚ) : StepRecord :=
  { battery_heater_input := 0
    battery_losses_input := losses
    battery_net_energy := losses
    battery_cond_to_box_inner := 0
    battery_conv_to_box_inner := 0
    battery_radi_to_box_inner := 0
    heater_to_battery := 0
    heater_to_box_inner := 0
    box_inner_net_energy := 0
    box_inner_cond_to_battery := 0
    box_inner_conv_to_battery := 0
    box_inner_radi_to_battery := 0
    box_inner_to_box_outer := 0
    box_outer_net_energy := 0
    box_outer_to_box_inner := 0
    box_outer_cond_to_environment := 0
    box_outer_conv_to_environment := 0
    box_outer_radi_to_environment := 0
    box_outer_cond_from_environment := 0
    box_outer_conv_from_environment := 0
    box_outer_radi_from_environment := 0
    battery_temp_c := 0
    box_inner_temp_c := 0
    box_outer_temp_c := 0 }

/-- Heater dwell bookkeeping (lines 740-745): while ON, increment the counter
if it is still below `heater_time_minutes`, otherwise switch OFF and reset
the counter.  The Python counter is an `int` compared against the float
`heater_time_minutes`, hence the cast. -/
def heaterDwell (p : EngineParams) (s : EngineState) : EngineState :=
  if s.heater_on then
    if (s.heater_counter : ℚ) < p.heater_time_minutes then
      { s with heater_counter := s.heater_counter + 1 }
    else
      { s with heater_on := false, heater_counter := 0 }
  else s

/-- Heater trigger check (lines 753-755): if the inner-wall temperature is at
or below the threshold and the heater is enabled, switch ON and set the
counter to `0`. -/
def heaterTrigger (p : EngineParams) (s : EngineState) : EngineState :=
  if s.box_inner_temp_c ≤ p.heater_threshold_temp_c ∧ p.use_heater = true then
    { s with heater_on := true, heater_counter := 0 }
  else s

/-- Heater injection (lines 757-778): when enabled and ON, split the heater
energy between battery and wall, add the heater throughput loss to the
recorded losses, tally everything, update both temperatures, and increment
the dwell counter a second time. -/
def injectionPhase (p : EngineParams) (r : StepRecord) (s : EngineState) :
    StepRecord × EngineState :=
  if p.use_heater = true ∧ s.heater_on = true then
    let heater_battery_energy_j := p.heater_power_j * p.heater_battery_transfer
    let heater_wall_energy_j := p.heater_power_j * (1 - p.heater_battery_transfer)
    let battery_losses_input_energy_j :=
      r.battery_losses_input + p.heater_power_j * p.battery_throughput_losses
    let battery_total_heating_losses_energy_j :=
      battery_losses_input_energy_j + heater_battery_energy_j
    ({ r with
        battery_heater_input := r.battery_heater_input + p.heater_power_j
        battery_losses_input := battery_losses_input_energy_j
        battery_net_energy := r.battery_net_energy + battery_total_heating_losses_energy_j
        box_inner_net_energy := r.box_inner_net_energy + heater_wall_energy_j
        heater_to_battery := r.heater_to_battery + heater_battery_energy_j
        heater_to_box_inner := r.heater_to_box_inner + heater_wall_energy_j },
     { s with
        battery_temp_c := calc_change_in_temperature_c s.battery_temp_c
          battery_total_heating_losses_energy_j p.battery_heat_capacity p.battery_mass_kg
        box_inner_temp_c := calc_change_in_temperature_c s.box_inner_temp_c
          heater_wall_energy_j p.box_heat_capacity p.box_wall_mass_kg
        heater_counter := s.heater_counter + 1 })
  else (r, s)

/-- Battery-to-inner-wall conduction (lines 784-801), executed only while the
inner-wall temperature is strictly above the heater threshold. -/
def condPhase (p : EngineParams) (r : StepRecord) (s : EngineState) :
    StepRecord × EngineState :=
  if s.box_inner_temp_c > p.heater_threshold_temp_c then
    let battery_cond_energy_flow_to_inner_wall_j := calculate_heat_energy_flow
      s.battery_temp_c s.box_inner_temp_c p.battery_conductive_resistance
      p.bucket_period_seconds
    ({ r with
        battery_cond_to_box_inner :=
          r.battery_cond_to_box_inner + battery_cond_energy_flow_to_inner_wall_j
        battery_net_energy :=
          r.battery_net_energy + -battery_cond_energy_flow_to_inner_wall_j
        box_inner_cond_to_battery :=
          r.box_inner_cond_to_battery + -battery_cond_energy_flow_to_inner_wall_j
        box_inner_net_energy :=
          r.box_inner_net_energy + battery_cond_energy_flow_to_inner_wall_j },
     { s with
        battery_temp_c := calc_change_in_temperature_c s.battery_temp_c
          (-battery_cond_energy_flow_to_inner_wall_j) p.battery_heat_capacity
          p.battery_mass_kg
        box_inner_temp_c := calc_change_in_temperature_c s.box_inner_temp_c
          battery_cond_energy_flow_to_inner_wall_j p.box_heat_capacity
          p.box_wall_mass_kg })
  else (r, s)

/-- Battery-to-inner-wall convection (lines 803-820), always executed. -/
def convPhase (p : EngineParams) (r : StepRecord) (s : EngineState) :
    StepRecord × EngineState :=
  let battery_conv_energy_flow_to_inner_wall_j := calculate_heat_energy_flow
    s.battery_temp_c s.box_inner_temp_c p.battery_convective_resistance
    p.bucket_period_seconds
  ({ r with
      battery_conv_to_box_inner :=
        r.battery_conv_to_box_inner + battery_conv_energy_flow_to_inner_wall_j
      battery_net_energy :=
        r.battery_net_energy + -battery_conv_energy_flow_to_inner_wall_j
      box_inner_conv_to_battery :=
        r.box_inner_conv_to_battery + -battery_conv_energy_flow_to_inner_wall_j
      box_inner_net_energy :=
        r.box_inner_net_energy + battery_conv_energy_flow_to_inner_wall_j },
   { s with
      battery_temp_c := calc_change_in_temperature_c s.battery_temp_c
        (-battery_conv_energy_flow_to_inner_wall_j) p.battery_heat_capacity
        p.battery_mass_kg
      box_inner_temp_c := calc_change_in_temperature_c s.box_inner_temp_c
        battery_conv_energy_flow_to_inner_wall_j p.box_heat_capacity
        p.box_wall_mass_kg })

/-- Battery-to-inner-wall enclosed radiative exchange (lines 823-840). -/
def radiPhase (p : EngineParams) (r : StepRecord) (s : EngineState) :
    StepRecord × EngineState :=
  let battery_radiative_energy_flow_to_inner_wall_j := calculate_inner_radiative_heat_flow
    p.total_battery_area p.total_box_area p.battery_emissivity p.box_inner_emissivity
    s.battery_temp_c s.box_inner_temp_c p.bucket_period_seconds
  ({ r with
      battery_radi_to_box_inner :=
        r.battery_radi_to_box_inner + battery_radiative_energy_flow_to_inner_wall_j
      battery_net_energy :=
        r.battery_net_energy + -battery_radiative_energy_flow_to_inner_wall_j
      box_inner_radi_to_battery :=
        r.box_inner_radi_to_battery + -battery_radiative_energy_flow_to_inner_wall_j
      box_inner_net_energy :=
        r.box_inner_net_energy + battery_radiative_energy_flow_to_inner_wall_j },
   { s with
      battery_temp_c := calc_change_in_temperature_c s.battery_temp_c
        (-battery_radiative_energy_flow_to_inner_wall_j) p.battery_heat_capacity
        p.battery_mass_kg
      box_inner_temp_c := calc_change_in_temperature_c s.box_inner_temp_c
        battery_radiative_energy_flow_to_inner_wall_j p.box_heat_capacity
        p.box_wall_mass_kg })

/-- Inner-wall-to-outer-wall conduction through the composite wall
(lines 843-861). -/
def wallCondPhase (p : EngineParams) (r : StepRecord) (s : EngineState) :
    StepRecord × EngineState :=
  let inner_wall_cond_energy_flow_to_outer_wall_j := calculate_heat_energy_flow
    s.box_inner_temp_c s.box_outer_temp_c p.box_composite_conductive_resistance
    p.bucket_period_seconds
  ({ r with
      box_inner_to_box_outer :=
        r.box_inner_to_box_outer + inner_wall_cond_energy_flow_to_outer_wall_j
      box_inner_net_energy :=
        r.box_inner_net_energy + -inner_wall_cond_energy_flow_to_outer_wall_j
      box_outer_to_box_inner :=
        r.box_outer_to_box_inner + -inner_wall_cond_energy_flow_to_outer_wall_j
      box_outer_net_energy :=
        r.box_outer_net_energy + inner_wall_cond_energy_flow_to_outer_wall_j },
   { s with
      box_inner_temp_c := calc_change_in_temperature_c s.box_inner_temp_c
        (-inner_wall_cond_energy_flow_to_outer_wall_j) p.box_heat_capacity
        p.box_wall_mass_kg
      box_outer_temp_c := calc_change_in_temperature_c s.box_outer_temp_c
        inner_wall_cond_energy_flow_to_outer_wall_j p.box_heat_capacity
        p.box_wall_mass_kg })

/-- Outer-wall-to-environment losses (lines 864-892): convective, conductive
and radiative channels, each against the same ambient sample; one combined
temperature update; each channel recorded in `to` and negated `from` form.
*Note the sign at line 892*: the combined total is *added* to
`box_outer_net_energy` although the temperature update uses its negation. -/
def envPhase (p : EngineParams) (ambient_temperature : ℚ) (r : StepRecord)
    (s : EngineState) : StepRecord × EngineState :=
  let outer_wall_conv_energy_flow_to_environment_j := calculate_heat_energy_flow
    s.box_outer_temp_c ambient_temperature p.box_outer_convective_resistance
    p.bucket_period_seconds
  let outer_wall_cond_energy_flow_to_environment_j := calculate_heat_energy_flow
    s.box_outer_temp_c ambient_temperature p.box_outer_conductive_resistance
    p.bucket_period_seconds
  let outer_wall_radi_energy_flow_to_environment_j := calculate_outer_radiative_heat_flow
    p.total_box_area p.box_outer_emissivity s.box_outer_temp_c ambient_temperature
    p.bucket_period_seconds
  let outer_wall_total_flow_to_environment_j :=
    outer_wall_conv_energy_flow_to_environment_j
      + outer_wall_cond_energy_flow_to_environment_j
      + outer_wall_radi_energy_flow_to_environment_j
  ({ r with
      box_outer_conv_to_environment :=
        r.box_outer_conv_to_environment + outer_wall_conv_energy_flow_to_environment_j
      box_outer_conv_from_environment :=
        r.box_outer_conv_from_environment + -outer_wall_conv_energy_flow_to_environment_j
      box_outer_cond_to_environment :=
        r.box_outer_cond_to_environment + outer_wall_cond_energy_flow_to_environment_j
      box_outer_cond_from_environment :=
        r.box_outer_cond_from_environment + -outer_wall_cond_energy_flow_to_environment_j
      box_outer_radi_to_environment :=
        r.box_outer_radi_to_environment + outer_wall_radi_energy_flow_to_environment_j
      box_outer_radi_from_environment :=
        r.box_outer_radi_from_environment + -outer_wall_radi_energy_flow_to_environment_j
      box_outer_net_energy :=
        r.box_outer_net_energy + outer_wall_total_flow_to_environment_j },
   { s with
      box_outer_temp_c := calc_change_in_temperature_c s.box_outer_temp_c
        (-outer_wall_total_flow_to_environment_j) p.box_heat_capacity
        p.box_wall_mass_kg })

/-- Record and state after the heater phases of one loop iteration
(lines 740-778): dwell bookkeeping, trigger check, injection. -/
def injectionPair (p : EngineParams) (losses : ℚ) (s : EngineState) :
    StepRecord × EngineState :=
  injectionPhase p (initRecord losses) (heaterTrigger p (heaterDwell p s))

/-- Record and state after the conditional battery-to-inner-wall conduction
(through line 801). -/
def condPair (p : EngineParams) (losses : ℚ) (s : EngineState) :
    StepRecord × EngineState :=
  condPhase p (injectionPair p losses s).1 (injectionPair p losses s).2

/-- Record and state after battery-to-inner-wall convection
(through line 820). -/
def convPair (p : EngineParams) (losses : ℚ) (s : EngineState) :
    StepRecord × EngineState :=
  convPhase p (condPair p losses s).1 (condPair p losses s).2

/-- Record and state after the battery-to-inner-wall radiative exchange
(through line 840). -/
def radiPair (p : EngineParams) (losses : ℚ) (s : EngineState) :
    StepRecord × EngineState :=
  radiPhase p (convPair p losses s).1 (convPair p losses s).2

/-- Record and state after the inner-wall-to-outer-wall conduction
(through line 861). -/
def wallCondPair (p : EngineParams) (losses : ℚ) (s : EngineState) :
    StepRecord × EngineState :=
  wallCondPhase p (radiPair p losses s).1 (radiPair p losses s).2

/-- One iteration of the loop of `jit_battery_energy_flow_model`
(lines 738-899) at ambient sample `amb` and precomputed throughput loss
`losses`: the phases in source order, then the three temperatures written
into the output record (lines 897-899). -/
def engineStep (p : EngineParams) (amb losses : ℚ) (s : EngineState) :
    StepRecord × EngineState :=
  let rs8 := envPhase p amb (wallCondPair p losses s).1 (wallCondPair p losses s).2
  ({ rs8.1 with
      battery_temp_c := rs8.2.battery_temp_c
      box_inner_temp_c := rs8.2.box_inner_temp_c
      box_outer_temp_c := rs8.2.box_outer_temp_c },
   rs8.2)

/-- The full loop: one `engineStep` per `(ambient, losses)` sample, threading
the state. -/
def engineRun (p : EngineParams) : List (ℚ × ℚ) → EngineState → List StepRecord
  | [], _ => []
  | sample :: rest, s =>
    let out := engineStep p sample.1 sample.2 s
    out.1 :: engineRun p rest out.2

/-- The arrays returned by `jit_battery_energy_flow_model` (lines 901-929):
the ambient and humidity input arrays come back unchanged, every computed
column is produced by the loop. -/
structure EngineOutput where
  amb_temp : List ℚ
  humidity : List ℚ
  records : List StepRecord

/-- `jit_battery_energy_flow_model` (lines 673-929): the loop is driven by
the sample index; `humidity` is passed in, never read by the loop body, and
returned as-is (line 904).  Initial temperatures and heater state are taken
from `s0` (lines 729-735: temperatures from the first array entries, heater
OFF with counter `0` for a fresh run). -/
def jit_battery_energy_flow_model (p : EngineParams)
    (amb humidity losses : List ℚ) (s0 : EngineState) : EngineOutput :=
  { amb_temp := amb
    humidity := humidity
    records := engineRun p (amb.zip losses) s0 }

/-! ### Concrete scenarios used by the claim theorems -/

/-- A minimal parameter set with the heater disabled: unit masses, heat
capacities, resistances and box area, zero battery area (so the enclosed
radiative term vanishes), zero outer emissivity (so the outer radiative term
vanishes), threshold 5 °C. -/
def steadyParams : EngineParams :=
  { bucket_period_seconds := 1
    battery_mass_kg := 1
    battery_heat_capacity := 1
    total_battery_area := 0
    box_wall_mass_kg := 1
    box_heat_capacity := 1
    total_box_area := 1
    battery_conductive_resistance := 1
    battery_convective_resistance := 1
    box_composite_conductive_resistance := 1
    box_outer_conductive_resistance := 1
    box_outer_convective_resistance := 1
    heater_threshold_temp_c := 5
    use_heater := false
    heater_power_j := 60
    heater_battery_transfer := 1 / 2
    heater_time_minutes := 5
    battery_emissivity := 1
    box_inner_emissivity := 1
    box_outer_emissivity := 0
    battery_throughput_losses := 0 }

/-- All three temperatures at 10 °C, heater OFF: the state the run of
`calculate_net_energy_flows` starts from when the first ambient sample is
10 °C. -/
def steadyStart : EngineState := ⟨10, 10, 10, false, 0⟩

/-- One step of the engine from `steadyStart` with ambient 0 °C and no
throughput loss: the battery/inner-wall flows are all zero (equal
temperatures), while the outer wall loses energy to the colder
environment. -/
def steadyRecord : StepRecord := (engineStep steadyParams 0 0 steadyStart).1

/-- Parameters exercising the heater dwell logic: heater enabled, threshold
0 °C, 100 J per bucket split half/half, minimum-on time 5, slow wall-to-wall
and wall-to-environment flows (resistance 100) so that the walls stay warm
between steps. -/
def dwellParams : EngineParams :=
  { bucket_period_seconds := 1
    battery_mass_kg := 1
    battery_heat_capacity := 1
    total_battery_area := 0
    box_wall_mass_kg := 1
    box_heat_capacity := 1
    total_box_area := 1
    battery_conductive_resistance := 1
    battery_convective_resistance := 1
    box_composite_conductive_resistance := 100
    box_outer_conductive_resistance := 100
    box_outer_convective_resistance := 100
    heater_threshold_temp_c := 0
    use_heater := true
    heater_power_j := 100
    heater_battery_transfer := 1 / 2
    heater_time_minutes := 5
    battery_emissivity := 1
    box_inner_emissivity := 1
    box_outer_emissivity := 0
    battery_throughput_losses := 0 }

/-- Initial state for the dwell scenario: everything at the 0 °C threshold,
heater OFF — the heater triggers at the first step. -/
def dwellStart : EngineState := ⟨0, 0, 0, false, 0⟩

/-- Five steps of the dwell scenario at constant 0 °C ambient with no
throughput losses. -/
def dwellRun : List StepRecord :=
  engineRun dwellParams (List.replicate 5 (0, 0)) dwellStart

/-- The dwell parameters with a powerless heater: the walls never warm, so
the inner-wall temperature sits at the threshold every step and the trigger
condition keeps firing while the heater is already ON. -/
def retriggerParams : EngineParams :=
  { bucket_period_seconds := 1
    battery_mass_kg := 1
    battery_heat_capacity := 1
    total_battery_area := 0
    box_wall_mass_kg := 1
    box_heat_capacity := 1
    total_box_area := 1
    battery_conductive_resistance := 1
    battery_convective_resistance := 1
    box_composite_conductive_resistance := 100
    box_outer_conductive_resistance := 100
    box_outer_convective_resistance := 100
    heater_threshold_temp_c := 0
    use_heater := true
    heater_power_j := 0
    heater_battery_transfer := 1 / 2
    heater_time_minutes := 5
    battery_emissivity := 1
    box_inner_emissivity := 1
    box_outer_emissivity := 0
    battery_throughput_losses := 0 }

/-- The state after the first step of the retrigger scenario: heater ON with
counter 1, all temperatures still 0 °C. -/
def retriggerState : EngineState := (engineStep retriggerParams 0 0 dwellStart).2

/-- Polystyrene per `Container/data`-style values:
thickness 0.01 m, conductivity 0.04 W/mK, heat capacity 1400 J/kgK,
density 25 kg/m³, emissivity 0.9. -/
def materialPolystyrene : MaterialLayer := ⟨1 / 100, 1 / 25, 1400, 25, 9 / 10⟩

/-- Wood: thickness 0.01 m, conductivity 0.12 W/mK, heat capacity
1700 J/kgK, density 600 kg/m³, emissivity 0.9. -/
def materialWood : MaterialLayer := ⟨1 / 100, 3 / 25, 1700, 600, 9 / 10⟩

/-- The network builder on the two-layer list `[polystyrene, wood]` with all
five areas equal to 1 m² (total box area 2 m²). -/
def twoLayerBoxParams : Option BoxParams :=
  calculate_battery_box_parameters 1 1 1 1 1 [some materialPolystyrene, some materialWood]

/-! ### Helper lemmas (shared) -/

/-- The injection phase never touches the conduction tallies, the
environment-channel tallies, or the battery temperature-independent flow
tallies other than its own. -/
theorem injectionPhase_untouched (p : EngineParams) (r : StepRecord) (s : EngineState) :
    (injectionPhase p r s).1.battery_cond_to_box_inner = r.battery_cond_to_box_inner ∧
    (injectionPhase p r s).1.box_inner_cond_to_battery = r.box_inner_cond_to_battery ∧
    (injectionPhase p r s).1.box_outer_cond_to_environment = r.box_outer_cond_to_environment ∧
    (injectionPhase p r s).1.box_outer_conv_to_environment = r.box_outer_conv_to_environment ∧
    (injectionPhase p r s).1.box_outer_radi_to_environment = r.box_outer_radi_to_environment ∧
    (injectionPhase p r s).1.box_outer_cond_from_environment = r.box_outer_cond_from_environment ∧
    (injectionPhase p r s).1.box_outer_conv_from_environment = r.box_outer_conv_from_environment ∧
    (injectionPhase p r s).1.box_outer_radi_from_environment = r.box_outer_radi_from_environment := by
  by_cases h : p.use_heater = true ∧ s.heater_on = true <;>
    simp [injectionPhase, h]

/-- The conditional conduction phase never touches the environment-channel
tallies, the heater tallies, or the losses column. -/
theorem condPhase_untouched (p : EngineParams) (r : StepRecord) (s : EngineState) :
    (condPhase p r s).1.box_outer_cond_to_environment = r.box_outer_cond_to_environment ∧
    (condPhase p r s).1.box_outer_conv_to_environment = r.box_outer_conv_to_environment ∧
    (condPhase p r s).1.box_outer_radi_to_environment = r.box_outer_radi_to_environment ∧
    (condPhase p r s).1.box_outer_cond_from_environment = r.box_outer_cond_from_environment ∧
    (condPhase p r s).1.box_outer_conv_from_environment = r.box_outer_conv_from_environment ∧
    (condPhase p r s).1.box_outer_radi_from_environment = r.box_outer_radi_from_environment ∧
    (condPhase p r s).1.battery_losses_input = r.battery_losses_input ∧
    (condPhase p r s).1.battery_heater_input = r.battery_heater_input := by
  by_cases h : s.box_inner_temp_c > p.heater_threshold_temp_c <;>
    simp [condPhase, h]

/-- After the heater phases, every tally the injection does not touch is
still at its initial value: zero. -/
theorem injectionPair_zero_tallies (p : EngineParams) (losses : ℚ) (s : EngineState) :
    (injectionPair p losses s).1.battery_cond_to_box_inner = 0 ∧
    (injectionPair p losses s).1.box_inner_cond_to_battery = 0 ∧
    (injectionPair p losses s).1.box_outer_cond_to_environment = 0 ∧
    (injectionPair p losses s).1.box_outer_conv_to_environment = 0 ∧
    (injectionPair p losses s).1.box_outer_radi_to_environment = 0 ∧
    (injectionPair p losses s).1.box_outer_cond_from_environment = 0 ∧
    (injectionPair p losses s).1.box_outer_conv_from_environment = 0 ∧
    (injectionPair p losses s).1.box_outer_radi_from_environment = 0 := by
  have h := injectionPhase_untouched p (initRecord losses) (heaterTrigger p (heaterDwell p s))
  simp only [injectionPair]
  simpa [initRecord] using h

/-- The environment-channel tallies are still zero when the
outer-wall-to-environment phase begins. -/
theorem wallCondPair_env_zero (p : EngineParams) (losses : ℚ) (s : EngineState) :
    (wallCondPair p losses s).1.box_outer_cond_to_environment = 0 ∧
    (wallCondPair p losses s).1.box_outer_conv_to_environment = 0 ∧
    (wallCondPair p losses s).1.box_outer_radi_to_environment = 0 ∧
    (wallCondPair p losses s).1.box_outer_cond_from_environment = 0 ∧
    (wallCondPair p losses s).1.box_outer_conv_from_environment = 0 ∧
    (wallCondPair p losses s).1.box_outer_radi_from_environment = 0 := by
  obtain ⟨-, -, z1, z2, z3, z4, z5, z6⟩ := injectionPair_zero_tallies p losses s
  obtain ⟨c1, c2, c3, c4, c5, c6, -, -⟩ :=
    condPhase_untouched p (injectionPair p losses s).1 (injectionPair p losses s).2
  exact ⟨c1.trans z1, c2.trans z2, c3.trans z3, c4.trans z4, c5.trans z5, c6.trans z6⟩

/-- The conduction tallies of the finished step are those recorded by the
conduction phase: no later phase touches them. -/
theorem engineStep_cond_tallies (p : EngineParams) (amb losses : ℚ) (s : EngineState) :
    (engineStep p amb losses s).1.battery_cond_to_box_inner
      = (condPair p losses s).1.battery_cond_to_box_inner ∧
    (engineStep p amb losses s).1.box_inner_cond_to_battery
      = (condPair p losses s).1.box_inner_cond_to_battery :=
  ⟨rfl, rfl⟩

/-! ### Claim theorems -/

/-- C1 — refuting evaluation.  One engine step from 10 °C (all three nodes)
with ambient 0 °C, heater disabled: the recorded outer-wall net energy is
`+20 J`, but the recorded flows entering the outer wall
(`Box_Inner_to_Box_Outer_Energy_J = 0`) minus the recorded flows leaving it
(the three `..._to_Environment` channels, total `20 J`) give `−20 J`.  The
loop adds `outer_wall_total_flow_to_environment_j` to
`box_outer_net_energy[i]` with a positive sign (line 892) even though the
same step updates the outer-wall temperature by its negation (line 881). -/
theorem box_outer_net_energy_breaks_conservation :
    steadyRecord.box_outer_net_energy = 20 ∧
    steadyRecord.box_inner_to_box_outer
        - (steadyRecord.box_outer_cond_to_environment
          + steadyRecord.box_outer_conv_to_environment
          + steadyRecord.box_outer_radi_to_environment) = -20 ∧
    steadyRecord.box_outer_net_energy ≠
      steadyRecord.box_inner_to_box_outer
        - (steadyRecord.box_outer_cond_to_environment
          + steadyRecord.box_outer_conv_to_environment
          + steadyRecord.box_outer_radi_to_environment) := by
  norm_num [steadyRecord, engineStep, wallCondPair, radiPair, convPair, condPair, injectionPair, injectionPhase, condPhase, convPhase, radiPhase, wallCondPhase, envPhase, heaterDwell, heaterTrigger, initRecord, calculate_heat_energy_flow, calculate_outer_radiative_heat_flow, calculate_inner_radiative_heat_flow, calc_change_in_temperature_c, stefan_boltzmann_constant, celsius_to_kelvin_offset, steadyParams, steadyStart]

/-- C2 — refuting evaluation.  In the dwell scenario the heater triggers at
step 0 (inner-wall temperature `0 ≤ 0` with the heater enabled) and
`heater_time_minutes = 5`, yet energy is injected only at steps 0, 1 and 2:
`Battery_Heater_Input_J` is `0` at steps 3 and 4.  The loop increments
`heater_counter` twice per ON step (lines 742 and 778), so the ON interval
is shorter than the configured minimum. -/
theorem heater_injection_stops_before_minimum_dwell :
    dwellParams.use_heater = true ∧
    dwellStart.box_inner_temp_c ≤ dwellParams.heater_threshold_temp_c ∧
    dwellParams.heater_time_minutes = 5 ∧
    dwellRun.map (fun rec => rec.battery_heater_input) = [100, 100, 100, 0, 0] := by
  refine ⟨rfl, by norm_num [dwellStart, dwellParams], rfl, ?_⟩
  norm_num [dwellRun, engineRun, engineStep, wallCondPair, radiPair, convPair, condPair, injectionPair, injectionPhase, condPhase, convPhase, radiPhase, wallCondPhase, envPhase, heaterDwell, heaterTrigger, initRecord, calculate_heat_energy_flow, calculate_outer_radiative_heat_flow, calculate_inner_radiative_heat_flow, calc_change_in_temperature_c, stefan_boltzmann_constant, celsius_to_kelvin_offset, dwellParams, dwellStart, List.replicate]

/-- C3 — counterexample.  In the retrigger scenario the heater is already ON
at step 1 with dwell counter 2 (after the bookkeeping increment), the
inner-wall temperature is again at the threshold, and the re-trigger of
lines 753-755 resets the counter to 0: the elapsed-on counter is *not* left
unchanged. -/
theorem heater_retrigger_changes_counter :
    retriggerState.heater_on = true ∧
    (heaterDwell retriggerParams retriggerState).heater_counter = 2 ∧
    (heaterDwell retriggerParams retriggerState).box_inner_temp_c
      ≤ retriggerParams.heater_threshold_temp_c ∧
    retriggerParams.use_heater = true ∧
    (heaterTrigger retriggerParams (heaterDwell retriggerParams retriggerState)).heater_counter
      = 0 ∧
    (heaterTrigger retriggerParams (heaterDwell retriggerParams retriggerState)).heater_counter
      ≠ (heaterDwell retriggerParams retriggerState).heater_counter := by
  norm_num [retriggerState, engineStep, wallCondPair, radiPair, convPair, condPair, injectionPair, injectionPhase, condPhase, convPhase, radiPhase, wallCondPhase, envPhase, heaterDwell, heaterTrigger, initRecord, calculate_heat_energy_flow, calculate_outer_radiative_heat_flow, calculate_inner_radiative_heat_flow, calc_change_in_temperature_c, stefan_boltzmann_constant, celsius_to_kelvin_offset, retriggerParams, dwellStart]

/-- C3 — amended.  Re-triggering while the heater is already ON leaves it ON
but resets the elapsed-on counter to 0, so the minimum-on duration is a
floor measured from the most recent step at which the threshold condition
held, not from the original entry into the ON state. -/
theorem heater_retrigger_resets_counter (p : EngineParams) (s : EngineState)
    (htemp : s.box_inner_temp_c ≤ p.heater_threshold_temp_c)
    (henabled : p.use_heater = true) :
    (heaterTrigger p s).heater_on = true ∧ (heaterTrigger p s).heater_counter = 0 := by
  unfold heaterTrigger
  rw [if_pos ⟨htemp, henabled⟩]
  exact ⟨rfl, rfl⟩

/-- Witness for the amended C3 theorem at a concrete ON state. -/
theorem heater_retrigger_resets_counter_witness :
    (heaterTrigger retriggerParams ⟨0, 0, 0, true, 2⟩).heater_on = true ∧
    (heaterTrigger retriggerParams ⟨0, 0, 0, true, 2⟩).heater_counter = 0 :=
  heater_retrigger_resets_counter retriggerParams ⟨0, 0, 0, true, 2⟩ (by norm_num [retriggerParams]) rfl

/-- C4 — refuting evaluation.  On the two-layer list `[polystyrene, wood]`
with total box area 2 m² the builder returns wall mass `73 kg`: it computes
`area/2 * density * conductivity` for each layer because lines 333-342 read
tuple position `[0]` (the thickness) into the conductivity variable and
position `[1]` (the conductivity) into the thickness variable.  The value
the claim's formula gives, `area/2 * density * thickness` summed over the
two layers, is `6.25 kg`.  The heat-capacity half of the claim does hold:
the builder returns the arithmetic mean `1550 J/kgK`. -/
theorem wall_mass_swaps_thickness_and_conductivity :
    twoLayerBoxParams.map (fun bp => bp.box_wall_mass_kg) = some 73 ∧
    (2 / 2 * materialPolystyrene.density * materialPolystyrene.thickness_m
        + 2 / 2 * materialWood.density * materialWood.thickness_m : ℚ) = 25 / 4 ∧
    (73 : ℚ) ≠ 25 / 4 ∧
    twoLayerBoxParams.map (fun bp => bp.box_heat_capacity) = some 1550 := by
  refine ⟨?_, ?_, ?_, ?_⟩ <;>
    norm_num [twoLayerBoxParams, calculate_battery_box_parameters, buildBoxParams,
      calculate_conductive_resistance, calculate_convective_resistance,
      calculate_composite_conductive_resistance, materialPolystyrene, materialWood,
      List.mapM, List.mapM.loop, Option.map]

/-- C5 — refuting evaluation.  A material list supplying only one layer does
not produce a thermal network at all: a one-element list fails at
`material_list[1]` (Python `IndexError`, line 338), and a list padded with a
falsy second entry fails when `calculate_composite_conductive_resistance`
unpacks it (Python `TypeError`, line 361 via line 62).  The half-thickness
split of lines 343-348 is unreachable without an exception. -/
theorem single_layer_material_list_fails :
    calculate_battery_box_parameters 1 1 1 1 1 [some materialPolystyrene] = none ∧
    calculate_battery_box_parameters 1 1 1 1 1 [some materialPolystyrene, none] = none :=
  ⟨rfl, rfl⟩

/-- C6.  The battery-to-inner-wall conductive flow is computed, tallied and
applied to both temperatures exactly when the inner-wall temperature at that
point of the step — after the heater phases — is strictly above the heater
threshold; at or below the threshold the phase is skipped entirely and the
two conduction ledger entries stay zero for the timestep. -/
theorem battery_conduction_gated_by_threshold (p : EngineParams) (amb losses : ℚ)
    (s : EngineState) :
    ((injectionPair p losses s).2.box_inner_temp_c > p.heater_threshold_temp_c →
      (engineStep p amb losses s).1.battery_cond_to_box_inner =
        calculate_heat_energy_flow (injectionPair p losses s).2.battery_temp_c
          (injectionPair p losses s).2.box_inner_temp_c
          p.battery_conductive_resistance p.bucket_period_seconds ∧
      (engineStep p amb losses s).1.box_inner_cond_to_battery =
        -(engineStep p amb losses s).1.battery_cond_to_box_inner ∧
      (condPair p losses s).2.battery_temp_c =
        calc_change_in_temperature_c (injectionPair p losses s).2.battery_temp_c
          (-calculate_heat_energy_flow (injectionPair p losses s).2.battery_temp_c
              (injectionPair p losses s).2.box_inner_temp_c
              p.battery_conductive_resistance p.bucket_period_seconds)
          p.battery_heat_capacity p.battery_mass_kg ∧
      (condPair p losses s).2.box_inner_temp_c =
        calc_change_in_temperature_c (injectionPair p losses s).2.box_inner_temp_c
          (calculate_heat_energy_flow (injectionPair p losses s).2.battery_temp_c
              (injectionPair p losses s).2.box_inner_temp_c
              p.battery_conductive_resistance p.bucket_period_seconds)
          p.box_heat_capacity p.box_wall_mass_kg) ∧
    (¬ (injectionPair p losses s).2.box_inner_temp_c > p.heater_threshold_temp_c →
      (engineStep p amb losses s).1.battery_cond_to_box_inner = 0 ∧
      (engineStep p amb losses s).1.box_inner_cond_to_battery = 0 ∧
      condPair p losses s = injectionPair p losses s) := by
  obtain ⟨zc1, zc2, -, -, -, -, -, -⟩ := injectionPair_zero_tallies p losses s
  constructor
  · intro h
    refine ⟨?_, ?_, ?_, ?_⟩
    · rw [(engineStep_cond_tallies p amb losses s).1]
      simp [condPair, condPhase, h, zc1]
    · rw [(engineStep_cond_tallies p amb losses s).1,
        (engineStep_cond_tallies p amb losses s).2]
      simp [condPair, condPhase, h, zc1, zc2]
    · simp [condPair, condPhase, h]
    · simp [condPair, condPhase, h]
  · intro h
    refine ⟨?_, ?_, ?_⟩
    · rw [(engineStep_cond_tallies p amb losses s).1]
      simp [condPair, condPhase, h, zc1]
    · rw [(engineStep_cond_tallies p amb losses s).2]
      simp [condPair, condPhase, h, zc2]
    · simp [condPair, condPhase, h]

/-- Witness for C6 at a concrete step: heater disabled, all temperatures
10 °C above a 5 °C threshold, so the conductive branch is active. -/
theorem battery_conduction_gated_by_threshold_witness :
    (engineStep steadyParams 0 0 steadyStart).1.battery_cond_to_box_inner =
      calculate_heat_energy_flow (injectionPair steadyParams 0 steadyStart).2.battery_temp_c
        (injectionPair steadyParams 0 steadyStart).2.box_inner_temp_c
        steadyParams.battery_conductive_resistance steadyParams.bucket_period_seconds ∧
    (engineStep steadyParams 0 0 steadyStart).1.box_inner_cond_to_battery =
      -(engineStep steadyParams 0 0 steadyStart).1.battery_cond_to_box_inner ∧
    (condPair steadyParams 0 steadyStart).2.battery_temp_c =
      calc_change_in_temperature_c (injectionPair steadyParams 0 steadyStart).2.battery_temp_c
        (-calculate_heat_energy_flow (injectionPair steadyParams 0 steadyStart).2.battery_temp_c
            (injectionPair steadyParams 0 steadyStart).2.box_inner_temp_c
            steadyParams.battery_conductive_resistance steadyParams.bucket_period_seconds)
        steadyParams.battery_heat_capacity steadyParams.battery_mass_kg ∧
    (condPair steadyParams 0 steadyStart).2.box_inner_temp_c =
      calc_change_in_temperature_c (injectionPair steadyParams 0 steadyStart).2.box_inner_temp_c
        (calculate_heat_energy_flow (injectionPair steadyParams 0 steadyStart).2.battery_temp_c
            (injectionPair steadyParams 0 steadyStart).2.box_inner_temp_c
            steadyParams.battery_conductive_resistance steadyParams.bucket_period_seconds)
        steadyParams.box_heat_capacity steadyParams.box_wall_mass_kg :=
  (battery_conduction_gated_by_threshold steadyParams 0 0 steadyStart).1
    (by norm_num [injectionPair, injectionPhase, heaterTrigger, heaterDwell,
      steadyParams, steadyStart, initRecord])

/-- C7.  The three outer-wall-to-environment channels are each computed from
the same pre-update outer-wall temperature against the same ambient sample;
each recorded `from`-environment tally is exactly the negation of the
corresponding `to`-environment tally; and the outer-wall temperature is
updated once, from the combined total of the three channels. -/
theorem outer_environment_channels_consistent (p : EngineParams) (amb losses : ℚ)
    (s : EngineState) :
    (engineStep p amb losses s).1.box_outer_cond_from_environment =
      -(engineStep p amb losses s).1.box_outer_cond_to_environment ∧
    (engineStep p amb losses s).1.box_outer_conv_from_environment =
      -(engineStep p amb losses s).1.box_outer_conv_to_environment ∧
    (engineStep p amb losses s).1.box_outer_radi_from_environment =
      -(engineStep p amb losses s).1.box_outer_radi_to_environment ∧
    (engineStep p amb losses s).1.box_outer_cond_to_environment =
      calculate_heat_energy_flow (wallCondPair p losses s).2.box_outer_temp_c amb
        p.box_outer_conductive_resistance p.bucket_period_seconds ∧
    (engineStep p amb losses s).1.box_outer_conv_to_environment =
      calculate_heat_energy_flow (wallCondPair p losses s).2.box_outer_temp_c amb
        p.box_outer_convective_resistance p.bucket_period_seconds ∧
    (engineStep p amb losses s).1.box_outer_radi_to_environment =
      calculate_outer_radiative_heat_flow p.total_box_area p.box_outer_emissivity
        (wallCondPair p losses s).2.box_outer_temp_c amb p.bucket_period_seconds ∧
    (engineStep p amb losses s).1.box_outer_temp_c =
      calc_change_in_temperature_c (wallCondPair p losses s).2.box_outer_temp_c
        (-((engineStep p amb losses s).1.box_outer_conv_to_environment
          + (engineStep p amb losses s).1.box_outer_cond_to_environment
          + (engineStep p amb losses s).1.box_outer_radi_to_environment))
        p.box_heat_capacity p.box_wall_mass_kg := by
  obtain ⟨z1, z2, z3, z4, z5, z6⟩ := wallCondPair_env_zero p losses s
  refine ⟨?_, ?_, ?_, ?_, ?_, ?_, ?_⟩ <;>
    simp [engineStep, envPhase, z1, z2, z3, z4, z5, z6]

/-- C8.  Conductive resistance is `thickness / (conductivity * area)`; at
thickness 0.01 m, conductivity 0.04 W/mK and area 1 m² it is 0.25 K/W, and
a 10 °C difference over that resistance for 60 s moves
`(10 / 0.25) * 60 = 2400 J`. -/
theorem conductive_resistance_and_flow_values (t k A : ℚ)
    (ht : 0 < t) (hk : 0 < k) (hA : 0 < A) :
    calculate_conductive_resistance t k A = t / (k * A) ∧
    calculate_conductive_resistance (1 / 100) (1 / 25) 1 = 1 / 4 ∧
    calculate_heat_energy_flow 10 0 (1 / 4) 60 = 10 / (1 / 4) * 60 ∧
    calculate_heat_energy_flow 10 0 (1 / 4) 60 = 2400 := by
  refine ⟨rfl, ?_, ?_, ?_⟩ <;>
    norm_num [calculate_conductive_resistance, calculate_heat_energy_flow]

/-- Witness for C8 at positive inputs. -/
theorem conductive_resistance_and_flow_values_witness :
    calculate_conductive_resistance (1 / 100) (1 / 25) 1 = 1 / 4 ∧
    calculate_heat_energy_flow 10 0 (1 / 4) 60 = 2400 := by
  have h := conductive_resistance_and_flow_values 1 1 1
    (by norm_num) (by norm_num) (by norm_num)
  exact ⟨h.2.1, h.2.2.2⟩

/-- C9.  Two runs whose inputs differ only in the relative-humidity series
produce identical records (temperatures and the whole energy ledger) and
identical ambient output; the humidity output is the input passed through
unchanged — the loop never reads it. -/
theorem humidity_has_no_influence (p : EngineParams) (amb h1 h2 losses : List ℚ)
    (s0 : EngineState) :
    (jit_battery_energy_flow_model p amb h1 losses s0).records =
      (jit_battery_energy_flow_model p amb h2 losses s0).records ∧
    (jit_battery_energy_flow_model p amb h1 losses s0).amb_temp =
      (jit_battery_energy_flow_model p amb h2 losses s0).amb_temp ∧
    (jit_battery_energy_flow_model p amb h1 losses s0).humidity = h1 :=
  ⟨rfl, rfl, rfl⟩

/-- C10.  On a timestep where the heater is not ON for the injection phase,
the externally supplied throughput-loss energy has no effect on any
temperature — two runs of the step that differ only in that energy produce
the same final state and the same recorded battery temperature — yet the
loss is still counted: the recorded net energies differ by exactly the
difference of the losses, and the loss column carries the input value. -/
theorem losses_only_heat_battery_when_heater_on (p : EngineParams) (amb l1 l2 : ℚ)
    (s : EngineState)
    (hoff : ¬(p.use_heater = true ∧ (heaterTrigger p (heaterDwell p s)).heater_on = true)) :
    (engineStep p amb l1 s).2 = (engineStep p amb l2 s).2 ∧
    (engineStep p amb l1 s).1.battery_temp_c = (engineStep p amb l2 s).1.battery_temp_c ∧
    (engineStep p amb l1 s).1.battery_net_energy
      - (engineStep p amb l2 s).1.battery_net_energy = l1 - l2 ∧
    (engineStep p amb l1 s).1.battery_losses_input = l1 := by
  have hinj1 : injectionPair p l1 s = (initRecord l1, heaterTrigger p (heaterDwell p s)) := by
    simp [injectionPair, injectionPhase, hoff]
  have hinj2 : injectionPair p l2 s = (initRecord l2, heaterTrigger p (heaterDwell p s)) := by
    simp [injectionPair, injectionPhase, hoff]
  by_cases hcond :
      (heaterTrigger p (heaterDwell p s)).box_inner_temp_c > p.heater_threshold_temp_c <;>
    refine ⟨?_, ?_, ?_, ?_⟩ <;>
      simp [engineStep, envPhase, wallCondPair, wallCondPhase, radiPair, radiPhase,
        convPair, convPhase, condPair, condPhase, hinj1, hinj2, hcond, initRecord]

/-- Witness for C10: heater disabled, losses 7 J versus 3 J. -/
theorem losses_only_heat_battery_when_heater_on_witness :
    (engineStep steadyParams 0 7 steadyStart).2 = (engineStep steadyParams 0 3 steadyStart).2 ∧
    (engineStep steadyParams 0 7 steadyStart).1.battery_temp_c =
      (engineStep steadyParams 0 3 steadyStart).1.battery_temp_c ∧
    (engineStep steadyParams 0 7 steadyStart).1.battery_net_energy
      - (engineStep steadyParams 0 3 steadyStart).1.battery_net_energy = 7 - 3 ∧
    (engineStep steadyParams 0 7 steadyStart).1.battery_losses_input = 7 :=
  losses_only_heat_battery_when_heater_on steadyParams 0 7 3 steadyStart
    (by simp [steadyParams])

end BatteryThermal
